import Mathlib

/-!
Verification development for the res_mon resource monitor
(`src/main.go`).  The Go code is shallowly embedded: machine integers
(`uint64`, `int32`) become `Nat`/`Int` (they are passed through without
arithmetic that could overflow), `float64`/`float32` become `Rat` (only
construction, division by constants and order comparisons occur),
fallible calls become `Except`/`Option`, and the WebSocket handler's
event loop becomes a trace-producing function over an explicit schedule
of loop events.  Times are in seconds; each `time.After(1 * time.Second)`
tick advances the clock by one unit.
-/

namespace ResMon

/-- Embeds Go struct `Memory` (src/main.go).  Fields in Go declaration
order: Total, Available, Used, UsedPercent, Free — note the fifth field
`free` (json tag "free") present in the source. -/
structure Memory where
  total : Nat
  available : Nat
  used : Nat
  usedPercent : Rat
  free : Nat
deriving DecidableEq, Repr

/-- Embeds Go struct `LoadAverage` (json tags load1, load5, load15). -/
structure LoadAverage where
  load1 : Rat
  load5 : Rat
  load15 : Rat
deriving DecidableEq, Repr

/-- Embeds Go struct `DiskPartition`. -/
structure DiskPartition where
  device : String
  mountpoint : String
  fstype : String
  total : Nat
  used : Nat
  free : Nat
  usedPercent : Rat
deriving DecidableEq, Repr

/-- Embeds Go struct `ProcessInfo`.  `pid` is `int32` in Go, embedded as
`Int`; `memoryPercent` is `float32`, embedded as `Rat` like the other
floats (it is only stored, never computed with). -/
structure ProcessInfo where
  pid : Int
  name : String
  cpuPercent : Rat
  memoryMB : Rat
  memoryPercent : Rat
  status : String
  username : String
  cmdline : String
deriving DecidableEq, Repr

/-- Embeds Go struct `Resources`, the wire-message value (json tags
hostname, uptime, memory, load_average, partitions, processes). -/
structure Resources where
  hostname : String
  uptime : Nat
  memory : Memory
  loadAverage : LoadAverage
  partitions : List DiskPartition
  processes : List ProcessInfo
deriving DecidableEq, Repr

/-- Embeds `firstOrEmpty` (src/main.go): first element of the status
slice if non-empty, otherwise the empty string. -/
def firstOrEmpty : List String → String
  | [] => ""
  | x :: _ => x

/-- Result of `disk.Usage(partition.Mountpoint)` when it succeeds. -/
structure DiskUsage where
  total : Nat
  used : Nat
  free : Nat
  usedPercent : Rat
deriving DecidableEq, Repr

/-- One element of `disk.Partitions(false)` together with the outcome of
its `disk.Usage` lookup (`none` = the lookup returned an error). -/
structure RawPartition where
  device : String
  mountpoint : String
  fstype : String
  usage : Option DiskUsage
deriving DecidableEq, Repr

/-- Result of `p.MemoryInfo()` when it succeeds; only the RSS field is
used by the code. -/
structure MemInfo where
  rss : Nat
deriving DecidableEq, Repr

/-- One element of `process.Processes()` with the outcomes of the
per-process lookups.  `name` and `memInfo` are `Option` because an error
makes the loop skip the entry; the remaining lookups discard their error
(`v, _ := ...`), so they are embedded as the value actually used (the
Go zero value when the call failed). -/
structure RawProcess where
  pid : Int
  name : Option String
  cpuPercent : Rat
  memInfo : Option MemInfo
  cmdline : String
  memPercent : Rat
  status : List String
  username : String
deriving DecidableEq, Repr

/-- Result of `mem.VirtualMemory()`; fields the code reads. -/
structure VirtualMemory where
  total : Nat
  free : Nat
  used : Nat
  usedPercent : Rat
  available : Nat
deriving DecidableEq, Repr

/-- Embeds the partition loop of `sendSnapshot`: entries whose
`disk.Usage` lookup failed are skipped (`continue`), the rest are
converted in order. -/
def buildPartitions (raw : List RawPartition) : List DiskPartition :=
  raw.filterMap fun p =>
    p.usage.map fun u =>
      { device := p.device, mountpoint := p.mountpoint, fstype := p.fstype,
        total := u.total, used := u.used, free := u.free,
        usedPercent := u.usedPercent }

/-- Embeds the process loop of `sendSnapshot`: an entry is skipped when
`p.Name()` fails, or (after that check) when `p.MemoryInfo()` fails;
otherwise it is converted with `MemoryMB = RSS / 1024 / 1024` and
`Status = firstOrEmpty(status)`. -/
def buildProcesses (raw : List RawProcess) : List ProcessInfo :=
  raw.filterMap fun p =>
    match p.name, p.memInfo with
    | some nm, some mi =>
        some { pid := p.pid, name := nm, cpuPercent := p.cpuPercent,
               memoryMB := (mi.rss : Rat) / 1024 / 1024,
               memoryPercent := p.memPercent,
               status := firstOrEmpty p.status,
               username := p.username, cmdline := p.cmdline }
    | _, _ => none

/-- Embeds `sort.Slice(processInfos, less i j := cpu i > cpu j)`.
Go's `sort.Slice` guarantees exactly that the result is a permutation of
the input that is sorted with respect to the comparator (it is not
stable); `List.insertionSort` with the complementary non-strict relation
`le a b := not (less b a) = (cpu b ≤ cpu a)` realizes that contract. -/
def sortProcesses (l : List ProcessInfo) : List ProcessInfo :=
  List.insertionSort (fun a b => b.cpuPercent ≤ a.cpuPercent) l

/-- Embeds the `Resources` literal built at the end of `sendSnapshot`
from the successful provider results. -/
def buildResources (hostname : String) (uptime : Nat) (v : VirtualMemory)
    (avg : LoadAverage) (rawParts : List RawPartition)
    (rawProcs : List RawProcess) : Resources :=
  { hostname := hostname
    uptime := uptime
    memory := { total := v.total, available := v.available, used := v.used,
                usedPercent := v.usedPercent, free := v.free }
    loadAverage := avg
    partitions := buildPartitions rawParts
    processes := sortProcesses (buildProcesses rawProcs) }

/-- The provider results consumed by one execution of `sendSnapshot`,
in call order: `host.Uptime()`, `mem.VirtualMemory()`, `load.Avg()`,
`disk.Partitions(false)`, `process.Processes()`.  An `Except.error`
makes `sendSnapshot` return that error. -/
structure ProviderInputs where
  uptime : Except String Nat
  vmem : Except String VirtualMemory
  loadAvg : Except String LoadAverage
  partitions : Except String (List RawPartition)
  processes : Except String (List RawProcess)
deriving Repr

/-- Embeds the gathering part of `sendSnapshot`: the calls run in
source order and the first failing one aborts with its error (`if err
!= nil { return err }`), otherwise the `Resources` value is built. -/
def gatherSnapshot (hostname : String) (i : ProviderInputs) :
    Except String Resources :=
  match i.uptime with
  | .error e => .error e
  | .ok uptime =>
    match i.vmem with
    | .error e => .error e
    | .ok v =>
      match i.loadAvg with
      | .error e => .error e
      | .ok avg =>
        match i.partitions with
        | .error e => .error e
        | .ok parts =>
          match i.processes with
          | .error e => .error e
          | .ok procs =>
            .ok (buildResources hostname uptime v avg parts procs)

/-- JSON values, as produced by Go's `encoding/json` for the types of
this program (numbers split by the Go source type). -/
inductive Json where
  | null
  | str (s : String)
  | nat (n : Nat)
  | int (i : Int)
  | rat (q : Rat)
  | arr (xs : List Json)
  | obj (fields : List (String × Json))

/-- Marshalling of `Memory`: field order and json tags from the Go
struct declaration (Total, Available, Used, UsedPercent, Free). -/
def marshalMemory (m : Memory) : Json :=
  .obj [("total", .nat m.total), ("available", .nat m.available),
        ("used", .nat m.used), ("usedPercent", .rat m.usedPercent),
        ("free", .nat m.free)]

/-- Marshalling of `LoadAverage`. -/
def marshalLoadAverage (l : LoadAverage) : Json :=
  .obj [("load1", .rat l.load1), ("load5", .rat l.load5),
        ("load15", .rat l.load15)]

/-- Marshalling of `DiskPartition`. -/
def marshalDiskPartition (d : DiskPartition) : Json :=
  .obj [("device", .str d.device), ("mountpoint", .str d.mountpoint),
        ("fstype", .str d.fstype), ("total", .nat d.total),
        ("used", .nat d.used), ("free", .nat d.free),
        ("usedPercent", .rat d.usedPercent)]

/-- Marshalling of `ProcessInfo`. -/
def marshalProcessInfo (p : ProcessInfo) : Json :=
  .obj [("pid", .int p.pid), ("name", .str p.name),
        ("cpuPercent", .rat p.cpuPercent), ("memoryMB", .rat p.memoryMB),
        ("memoryPercent", .rat p.memoryPercent), ("status", .str p.status),
        ("username", .str p.username), ("cmdline", .str p.cmdline)]

/-- Marshalling of the two slice fields.  In `sendSnapshot` both slices
are built by appending to a variable declared `var xs []T`, so the slice
is nil exactly when no element survived, and `encoding/json` marshals a
nil slice as JSON `null` (a non-nil slice as an array). -/
def marshalGoSlice (f : α → Json) (l : List α) : Json :=
  match l with
  | [] => .null
  | xs => .arr (xs.map f)

/-- Marshalling of the wire message `Resources` with its json tags, in
Go struct declaration order. -/
def marshalResources (r : Resources) : Json :=
  .obj [("hostname", .str r.hostname), ("uptime", .nat r.uptime),
        ("memory", marshalMemory r.memory),
        ("load_average", marshalLoadAverage r.loadAverage),
        ("partitions", marshalGoSlice marshalDiskPartition r.partitions),
        ("processes", marshalGoSlice marshalProcessInfo r.processes)]

/-- Top-level keys of a JSON object, in order. -/
def jsonKeys : Json → List String
  | .obj fields => fields.map (·.1)
  | _ => []

/-- Value of a key in a JSON object (first occurrence), `Json.null`
when absent or not an object. -/
def jsonLookup (j : Json) (k : String) : Json :=
  match j with
  | .obj fields =>
    match fields.find? (fun f => f.1 == k) with
    | some f => f.2
    | none => .null
  | _ => .null

/-- Tests whether a JSON value is `null`. -/
def isNullJson : Json → Bool
  | .null => true
  | _ => false

/-- Observable actions of the WebSocket handler, in trace order.
`wgAdd`/`wgDone` stand for `app.wg.Add(1)`/`app.wg.Done()`: they are in
the action vocabulary so that the registry behaviour of the handler can
be stated, but the handler body (src/main.go) contains no such call. -/
inductive WsAction where
  | sendMsg (r : Resources)
  | closeFrame (code : Nat) (reason : String)
  | logDisconnect
  | wgAdd
  | wgDone
deriving DecidableEq, Repr

/-- The WebSocket close code `websocket.CloseInternalServerErr`, the
only close code the program ever sends (`sendClose`). -/
def closeInternalServerErr : Nat := 1011

/-- One iteration of the handler's `select`: either the request context
is done (client disconnect / cancellation), or the one-second timer
fires and `sendSnapshot` runs with the given provider results and write
outcome (`some e` = `conn.WriteJSON` failed with error `e`). -/
inductive LoopEvent where
  | ctxDone
  | tick (inputs : ProviderInputs) (writeErr : Option String)

/-- Embeds one call of `sendSnapshot`: gather the snapshot, then write
it; the returned error is the gather error or, failing that, the write
error. -/
def stepTick (hostname : String) (inputs : ProviderInputs)
    (writeErr : Option String) : Except String Resources :=
  match gatherSnapshot hostname inputs with
  | .error e => .error e
  | .ok r =>
    match writeErr with
    | some e => .error e
    | none => .ok r

/-- Embeds the handler's `for { select ... } }` loop (src/main.go):
on `ctxDone` it logs and returns; on a tick it runs `sendSnapshot` and
either records the delivered message or sends the internal-error close
frame and returns.  The first component of each trace entry is the time
in seconds at which the action happens (each tick takes one second). -/
def wsLoop (hostname : String) : Nat → List LoopEvent → List (Nat × WsAction)
  | _, [] => []
  | t, .ctxDone :: _ => [(t, .logDisconnect)]
  | t, .tick inputs w :: rest =>
    match stepTick hostname inputs w with
    | .error e => [(t + 1, .closeFrame closeInternalServerErr e)]
    | .ok r => (t + 1, .sendMsg r) :: wsLoop hostname (t + 1) rest

/-- Embeds the body of `wsHandler` after a successful upgrade: resolve
`os.Hostname()` (close on failure), send the first snapshot immediately
at time 0 (close on failure), then enter the loop. -/
def wsHandlerRun (hostnameRes : Except String String)
    (first : ProviderInputs) (firstWriteErr : Option String)
    (events : List LoopEvent) : List (Nat × WsAction) :=
  match hostnameRes with
  | .error e => [(0, .closeFrame closeInternalServerErr e)]
  | .ok hostname =>
    match stepTick hostname first firstWriteErr with
    | .error e => [(0, .closeFrame closeInternalServerErr e)]
    | .ok r => (0, .sendMsg r) :: wsLoop hostname 0 events

/-- The interval-triggered sends after time `t`: the i-th element of
`rs` is sent at time `t + i + 1`, one send per one-second interval. -/
def intervalSends : Nat → List Resources → List (Nat × WsAction)
  | _, [] => []
  | t, r :: rs => (t + 1, .sendMsg r) :: intervalSends (t + 1) rs

/-- True exactly for the WaitGroup (session-registry) operations. -/
def isRegistryOp : WsAction → Bool
  | .wgAdd => true
  | .wgDone => true
  | _ => false

/-- Go error values relevant to `serve`: the sentinel
`http.ErrServerClosed` and any other error. -/
inductive GoErr where
  | errServerClosed
  | other (msg : String)
deriving DecidableEq, Repr

/-- Embeds `errors.Is` for the sentinel comparison in `serve`. -/
def errorsIs (e target : GoErr) : Bool :=
  decide (e = target)

/-- Embeds the tail of `serve` (src/main.go): `listenResult` is what
`srv.ListenAndServe()` returned, `drainResult` the value later read
from the `shutdownError` channel (`none` = nil).  The source reads
`if errors.Is(err, http.ErrServerClosed) { return err }` — it returns
the error precisely when it IS the sentinel — then forwards the drain
result. -/
def serveReturn (listenResult : GoErr) (drainResult : Option GoErr) :
    Option GoErr :=
  if errorsIs listenResult .errServerClosed then some listenResult
  else
    match drainResult with
    | some e => some e
    | none => none

/-- The drain grace period: `context.WithTimeout(..., 20*time.Second)`. -/
def gracePeriodSeconds : Nat := 20

/-- Embeds the shutdown goroutine of `serve`: it calls
`srv.Shutdown(ctx)` under the 20-second context (`shutdownErr` is its
result), forwards a non-nil error on the channel, then calls
`app.wg.Wait()` — which returns only if the WaitGroup counter is zero —
and sends nil.  The result is the first value `serve` could receive on
`shutdownError` (`none` = the goroutine never sends, blocked in
`wg.Wait()`). -/
def drainOutcome (shutdownErr : Option GoErr) (wgCount : Nat) :
    Option (Option GoErr) :=
  match shutdownErr with
  | some e => some (some e)
  | none => if wgCount = 0 then some none else none

/-- Number of `wg.Add(1)` actions in a handler trace. -/
def wgAddCount (trace : List (Nat × WsAction)) : Nat :=
  trace.countP fun p => decide (p.2 = WsAction.wgAdd)

/-- Number of `wg.Done()` actions in a handler trace. -/
def wgDoneCount (trace : List (Nat × WsAction)) : Nat :=
  trace.countP fun p => decide (p.2 = WsAction.wgDone)

/-- The WaitGroup counter after the given session traces ran: total
adds minus total dones. -/
def registryCount (sessions : List (List (Nat × WsAction))) : Nat :=
  (sessions.map wgAddCount).sum - (sessions.map wgDoneCount).sum

/-- Scenario A virtual-memory reading: total 1000, used 400,
available 600, usedPercent 40 (free is not specified there; 0). -/
def sampleVM : VirtualMemory :=
  { total := 1000, free := 0, used := 400, usedPercent := 40,
    available := 600 }

/-- Scenario A load averages: 1, 1, 1. -/
def sampleLoad : LoadAverage :=
  { load1 := 1, load5 := 1, load15 := 1 }

/-- Scenario A provider results: uptime 100, no partitions, no
processes, all calls succeeding. -/
def sampleInputsA : ProviderInputs :=
  { uptime := .ok 100, vmem := .ok sampleVM, loadAvg := .ok sampleLoad,
    partitions := .ok [], processes := .ok [] }

/-- The snapshot gathered from the Scenario A inputs on host h1. -/
def sampleSnapA : Resources :=
  buildResources "h1" 100 sampleVM sampleLoad [] []

/-- A raw process that introspects successfully with 0 CPU. -/
def rawProcLowA : RawProcess :=
  { pid := 1, name := some "procA", cpuPercent := 0,
    memInfo := some { rss := 1048576 }, cmdline := "/bin/a",
    memPercent := 0, status := ["S"], username := "root" }

/-- A second raw process, also at 0 CPU (a CPU-percentage tie). -/
def rawProcLowB : RawProcess :=
  { pid := 2, name := some "procB", cpuPercent := 0,
    memInfo := some { rss := 1048576 }, cmdline := "/bin/b",
    memPercent := 0, status := ["S"], username := "root" }

/-- Provider results yielding the two tied processes. -/
def sampleInputsTie : ProviderInputs :=
  { uptime := .ok 100, vmem := .ok sampleVM, loadAvg := .ok sampleLoad,
    partitions := .ok [], processes := .ok [rawProcLowA, rawProcLowB] }

/-- The snapshot gathered from the tied-process inputs. -/
def sampleSnapTie : Resources :=
  buildResources "h1" 100 sampleVM sampleLoad [] [rawProcLowA, rawProcLowB]

/-- Boolean check that adjacent `processes` entries strictly decrease
in `cpuPercent` (the claim's strict-descent property, executable). -/
def strictDescBool : List ProcessInfo → Bool
  | [] => true
  | [_] => true
  | a :: b :: t => decide (b.cpuPercent < a.cpuPercent) && strictDescBool (b :: t)

/-- True exactly for close-frame actions (any code, any reason). -/
def isCloseFrame : WsAction → Bool
  | .closeFrame _ _ => true
  | _ => false

/-- Provider results whose first call (`host.Uptime()`) fails. -/
def sampleInputsBad : ProviderInputs :=
  { uptime := .error "uptime failed", vmem := .ok sampleVM,
    loadAvg := .ok sampleLoad, partitions := .ok [], processes := .ok [] }

/-- A disk-usage reading for the sample partition. -/
def sampleUsage : DiskUsage :=
  { total := 100, used := 40, free := 60, usedPercent := 40 }

/-- A raw partition whose `disk.Usage` lookup failed. -/
def samplePartFail : RawPartition :=
  { device := "/dev/sdb1", mountpoint := "/mnt", fstype := "ext4",
    usage := none }

/-- A raw partition whose `disk.Usage` lookup succeeded. -/
def samplePartOk : RawPartition :=
  { device := "/dev/sda1", mountpoint := "/", fstype := "ext4",
    usage := some sampleUsage }

/-- A raw process whose `p.Name()` call failed. -/
def sampleProcNoName : RawProcess :=
  { pid := 3, name := none, cpuPercent := 5,
    memInfo := some { rss := 2048 }, cmdline := "/bin/c",
    memPercent := 1, status := ["R"], username := "root" }

/-- A raw process whose `p.MemoryInfo()` call failed. -/
def sampleProcNoMem : RawProcess :=
  { pid := 4, name := some "procD", cpuPercent := 5,
    memInfo := none, cmdline := "/bin/d",
    memPercent := 1, status := ["R"], username := "root" }

instance : IsTotal ProcessInfo (fun a b => b.cpuPercent ≤ a.cpuPercent) :=
  ⟨fun a b => le_total b.cpuPercent a.cpuPercent⟩

instance : IsTrans ProcessInfo (fun a b => b.cpuPercent ≤ a.cpuPercent) :=
  ⟨fun _ _ _ hab hbc => le_trans hbc hab⟩

theorem sortProcesses_chain (l : List ProcessInfo) :
    List.Chain' (fun a b => b.cpuPercent ≤ a.cpuPercent) (sortProcesses l) :=
  List.Pairwise.chain' (List.sorted_insertionSort _ l)

theorem gatherSnapshot_ok_processes (hostname : String) (i : ProviderInputs)
    (r : Resources) (h : gatherSnapshot hostname i = .ok r) :
    List.Chain' (fun a b => b.cpuPercent ≤ a.cpuPercent) r.processes := by
  unfold gatherSnapshot at h
  repeat' split at h
  all_goals cases h
  exact sortProcesses_chain _

theorem stepTick_ok_processes (hostname : String) (i : ProviderInputs)
    (w : Option String) (r : Resources) (h : stepTick hostname i w = .ok r) :
    List.Chain' (fun a b => b.cpuPercent ≤ a.cpuPercent) r.processes := by
  unfold stepTick at h
  cases hg : gatherSnapshot hostname i with
  | error e => rw [hg] at h; exact absurd h (by simp)
  | ok r0 =>
    rw [hg] at h
    cases w with
    | some e => exact absurd h (by simp)
    | none =>
      cases h
      exact gatherSnapshot_ok_processes hostname i _ hg

theorem wsLoop_sent_processes (hostname : String) (events : List LoopEvent) :
    ∀ (t tm : Nat) (r : Resources),
    (tm, WsAction.sendMsg r) ∈ wsLoop hostname t events →
    List.Chain' (fun a b => b.cpuPercent ≤ a.cpuPercent) r.processes := by
  induction events with
  | nil => intro t tm r h; simp [wsLoop] at h
  | cons ev rest ih =>
    intro t tm r h
    cases ev with
    | ctxDone => simp [wsLoop] at h
    | tick inputs w =>
      cases hs : stepTick hostname inputs w with
      | error e => simp [wsLoop, hs] at h
      | ok r0 =>
        simp only [wsLoop, hs, List.mem_cons] at h
        rcases h with h | h
        · cases h
          exact stepTick_ok_processes hostname inputs w _ hs
        · exact ih (t + 1) tm r h

theorem wsLoop_goodTicks (hostname : String) (goods : List ProviderInputs)
    (rs : List Resources)
    (hf : List.Forall₂ (fun i x => stepTick hostname i none = .ok x) goods rs) :
    ∀ (t : Nat) (rest : List LoopEvent),
    wsLoop hostname t (goods.map (fun i => LoopEvent.tick i none) ++ rest) =
      intervalSends t rs ++ wsLoop hostname (t + goods.length) rest := by
  induction hf with
  | nil => intro t rest; simp [intervalSends]
  | @cons i x goods2 rs2 hx hrest ih =>
    intro t rest
    simp only [List.map_cons, List.cons_append, List.append_eq, wsLoop, hx]
    rw [ih (t + 1) rest]
    have harith : t + 1 + goods2.length = t + (goods2.length + 1) := by omega
    simp [intervalSends, harith]

theorem intervalSends_time_pos (rs : List Resources) :
    ∀ (t : Nat) (p : Nat × WsAction), p ∈ intervalSends t rs → t < p.1 := by
  induction rs with
  | nil => intro t p h; simp [intervalSends] at h
  | cons r rs ih =>
    intro t p h
    simp only [intervalSends, List.mem_cons] at h
    rcases h with rfl | h
    · simp
    · have := ih (t + 1) p h
      omega

theorem intervalSends_no_close (rs : List Resources) :
    ∀ (t : Nat),
    (intervalSends t rs).countP (fun p => isCloseFrame p.2) = 0 := by
  induction rs with
  | nil => intro t; simp [intervalSends]
  | cons r rs ih =>
    intro t
    simp only [intervalSends, List.countP_cons, ih]
    rfl

theorem wsLoop_no_registry (hostname : String) (events : List LoopEvent) :
    ∀ (t : Nat),
    (wsLoop hostname t events).countP (fun p => isRegistryOp p.2) = 0 := by
  induction events with
  | nil => intro t; simp [wsLoop]
  | cons ev rest ih =>
    intro t
    cases ev with
    | ctxDone => rfl
    | tick inputs w =>
      cases hs : stepTick hostname inputs w with
      | error e => simp only [wsLoop, hs]; rfl
      | ok r0 =>
        simp only [wsLoop, hs, List.countP_cons, ih]
        rfl

theorem chain_lt_iff_strictDescBool (l : List ProcessInfo) :
    List.Chain' (fun a b => b.cpuPercent < a.cpuPercent) l ↔
      strictDescBool l = true := by
  induction l with
  | nil => simp [strictDescBool]
  | cons a t ih =>
    cases t with
    | nil => simp [strictDescBool]
    | cons b t2 =>
      simp only [strictDescBool, List.chain'_cons, Bool.and_eq_true,
        decide_eq_true_eq] at ih ⊢
      tauto

theorem isNullJson_ne_arr (j : Json) (h : isNullJson j = true)
    (xs : List Json) : j ≠ Json.arr xs := by
  intro he
  subst he
  exact Bool.noConfusion h

/-- C1: the claim says a graceful stop (all sessions drained) makes
`serve` return success.  In the source, after a graceful shutdown
`srv.ListenAndServe()` returns `http.ErrServerClosed` and the guard
`if errors.Is(err, http.ErrServerClosed) { return err }` returns that
error — the opposite of its own comment ("only returning the error if
it is NOT http.ErrServerClosed").  So whatever the drain outcome,
`serve` reports the sentinel error, never success. -/
theorem serve_graceful_shutdown_reports_failure (drainResult : Option GoErr) :
    serveReturn GoErr.errServerClosed drainResult =
      some GoErr.errServerClosed := rfl

/-- C2: the claim says every accepted connection increments the
Registry (WaitGroup) count on open and decrements it exactly once on
exit.  The embedded handler trace — covering every termination path:
hostname failure, first-send failure, disconnect, write failure,
provider failure, cancellation — contains no registry operation at all:
`wsHandler` never calls `app.wg.Add` or `app.wg.Done`. -/
theorem wsHandler_performs_no_registry_operations
    (hostnameRes : Except String String) (first : ProviderInputs)
    (firstWriteErr : Option String) (events : List LoopEvent) :
    (wsHandlerRun hostnameRes first firstWriteErr events).countP
      (fun p => isRegistryOp p.2) = 0 := by
  cases hostnameRes with
  | error e => rfl
  | ok hostname =>
    cases hs : stepTick hostname first firstWriteErr with
    | error e => simp only [wsHandlerRun, hs]; rfl
    | ok r =>
      simp only [wsHandlerRun, hs, List.countP_cons, wsLoop_no_registry]
      rfl

/-- C4, counterexample: a session whose provider reports two processes
with equal `cpuPercent` (a tie, e.g. both idle at 0) sends a snapshot
whose `processes` sequence is NOT strictly descending — the comparator
`cpu i > cpu j` leaves tied entries adjacent and equal, refuting the
claim's strict inequality between adjacent entries. -/
theorem strict_descending_fails_on_cpu_tie :
    (0, WsAction.sendMsg sampleSnapTie) ∈
      wsHandlerRun (.ok "h1") sampleInputsTie none [] ∧
    ¬ List.Chain' (fun a b => b.cpuPercent < a.cpuPercent)
      sampleSnapTie.processes := by
  constructor
  · rw [show wsHandlerRun (.ok "h1") sampleInputsTie none [] =
      [(0, WsAction.sendMsg sampleSnapTie)] from rfl]
    exact List.mem_singleton.mpr rfl
  · rw [chain_lt_iff_strictDescBool]
    decide

/-- C5, counterexample: the cancellation signal arriving between ticks
(the `ctx.Done` branch) makes the session log and return — the trace
contains no close frame of any kind, refuting the claim that a
normal-closure close notification is sent to the client before
terminating.  (The program's only close-sending path, `sendClose`, uses
`CloseInternalServerErr`, so no normal-closure frame exists anywhere.) -/
theorem cancellation_emits_no_close_frame :
    wsHandlerRun (.ok "h1") sampleInputsA none [.ctxDone] =
      [(0, .sendMsg sampleSnapA), (0, .logDisconnect)] ∧
    (wsHandlerRun (.ok "h1") sampleInputsA none [.ctxDone]).countP
      (fun p => isCloseFrame p.2) = 0 :=
  ⟨rfl, rfl⟩

/-- C7, counterexample: at the Scenario A snapshot the marshalled
memory object carries a fifth key "free" (the Go `Memory` struct has a
`Free` field with json tag "free"), so it does not have exactly the
four fields of the spec; and with no partitions/processes the slices
are nil, which `encoding/json` marshals as `null`, not as empty
arrays. -/
theorem scenarioA_wire_message_has_free_field_and_null_arrays :
    jsonKeys (jsonLookup (marshalResources sampleSnapA) "memory") ≠
      ["total", "available", "used", "usedPercent"] ∧
    jsonKeys (jsonLookup (marshalResources sampleSnapA) "memory") =
      ["total", "available", "used", "usedPercent", "free"] ∧
    (∀ xs, jsonLookup (marshalResources sampleSnapA) "partitions" ≠
      Json.arr xs) ∧
    (∀ xs, jsonLookup (marshalResources sampleSnapA) "processes" ≠
      Json.arr xs) :=
  ⟨by decide, rfl,
    fun xs => isNullJson_ne_arr
      (jsonLookup (marshalResources sampleSnapA) "partitions") rfl xs,
    fun xs => isNullJson_ne_arr
      (jsonLookup (marshalResources sampleSnapA) "processes") rfl xs⟩

/-- C9: the coordinator's wait on the session registry is
`app.wg.Wait()` on a counter no session ever increments, so at the
moment of drain it is 0 and the goroutine immediately reports the
graceful outcome (`nil` on the `shutdownError` channel) — here computed
with one session demonstrably active (its trace shown), refuting
"forced outcome iff some Session was still active at expiry". -/
theorem drain_outcome_graceful_despite_active_session :
    registryCount [wsHandlerRun (.ok "h1") sampleInputsA none []] = 0 ∧
    drainOutcome none
      (registryCount [wsHandlerRun (.ok "h1") sampleInputsA none []]) =
      some none :=
  ⟨rfl, rfl⟩

/-- C3: a session with a working provider sends its first snapshot at
time 0, before any interval wait, and that send precedes every
interval-triggered send (all of which happen at positive times); the
interval sends then occur once per one-second interval, the i-th at
time i + 1 (`intervalSends`). -/
theorem first_snapshot_sent_immediately_then_per_interval
    (hostname : String) (first : ProviderInputs) (r : Resources)
    (goods : List ProviderInputs) (rs : List Resources)
    (hfirst : stepTick hostname first none = .ok r)
    (hgoods : List.Forall₂
      (fun i x => stepTick hostname i none = .ok x) goods rs) :
    wsHandlerRun (.ok hostname) first none
        (goods.map (fun i => LoopEvent.tick i none)) =
      (0, WsAction.sendMsg r) :: intervalSends 0 rs ∧
    ∀ p ∈ intervalSends 0 rs, 0 < p.1 := by
  constructor
  · simp only [wsHandlerRun, hfirst]
    have h := wsLoop_goodTicks hostname goods rs hgoods 0 []
    simp only [List.append_nil] at h
    rw [h]
    simp [wsLoop]
  · exact fun p hp => intervalSends_time_pos rs 0 p hp

theorem first_snapshot_sent_immediately_then_per_interval_witness :
    stepTick "h1" sampleInputsA none = .ok sampleSnapA ∧
    (wsHandlerRun (.ok "h1") sampleInputsA none
        ([sampleInputsA].map (fun i => LoopEvent.tick i none)) =
      (0, WsAction.sendMsg sampleSnapA) ::
        intervalSends 0 [sampleSnapA] ∧
    ∀ p ∈ intervalSends 0 [sampleSnapA], 0 < p.1) :=
  ⟨rfl, first_snapshot_sent_immediately_then_per_interval "h1"
    sampleInputsA sampleSnapA [sampleInputsA] [sampleSnapA] rfl
    (List.Forall₂.cons rfl List.Forall₂.nil)⟩

/-- C6: when the provider fails on a tick after a succession of good
ticks, the session emits the internal-error close frame
(`CloseInternalServerErr` = 1011) whose reason is exactly the failure
description, and the trace ends there: the trailing schedule `rest`
(any would-be tick n+1) is never processed, so the provider is not
called again. -/
theorem provider_failure_closes_internal_error_and_stops
    (hostname : String) (first bad : ProviderInputs) (r : Resources)
    (goods : List ProviderInputs) (rs : List Resources) (e : String)
    (rest : List LoopEvent)
    (hfirst : stepTick hostname first none = .ok r)
    (hgoods : List.Forall₂
      (fun i x => stepTick hostname i none = .ok x) goods rs)
    (hbad : stepTick hostname bad none = .error e) :
    wsHandlerRun (.ok hostname) first none
        (goods.map (fun i => LoopEvent.tick i none) ++
          LoopEvent.tick bad none :: rest) =
      ((0, WsAction.sendMsg r) :: intervalSends 0 rs) ++
        [(goods.length + 1,
          WsAction.closeFrame closeInternalServerErr e)] := by
  simp only [wsHandlerRun, hfirst]
  rw [wsLoop_goodTicks hostname goods rs hgoods 0
    (LoopEvent.tick bad none :: rest)]
  simp only [wsLoop, hbad, Nat.zero_add]
  simp

theorem provider_failure_closes_internal_error_and_stops_witness :
    stepTick "h1" sampleInputsA none = .ok sampleSnapA ∧
    stepTick "h1" sampleInputsBad none = .error "uptime failed" ∧
    wsHandlerRun (.ok "h1") sampleInputsA none
        ([sampleInputsA].map (fun i => LoopEvent.tick i none) ++
          LoopEvent.tick sampleInputsBad none ::
            [LoopEvent.tick sampleInputsA none]) =
      ((0, WsAction.sendMsg sampleSnapA) ::
          intervalSends 0 [sampleSnapA]) ++
        [(2, WsAction.closeFrame closeInternalServerErr
          "uptime failed")] :=
  ⟨rfl, rfl, provider_failure_closes_internal_error_and_stops "h1"
    sampleInputsA sampleInputsBad sampleSnapA [sampleInputsA]
    [sampleSnapA] "uptime failed" [LoopEvent.tick sampleInputsA none]
    rfl (List.Forall₂.cons rfl List.Forall₂.nil) rfl⟩

/-- C5, amended: when the cancellation signal fires while the session
is between ticks, the session logs the disconnect and terminates
immediately WITHOUT sending any close notification (its trace contains
no close frame at all); the termination is not treated as an error. -/
theorem cancellation_terminates_without_close_frame
    (hostname : String) (first : ProviderInputs) (r : Resources)
    (goods : List ProviderInputs) (rs : List Resources)
    (rest : List LoopEvent)
    (hfirst : stepTick hostname first none = .ok r)
    (hgoods : List.Forall₂
      (fun i x => stepTick hostname i none = .ok x) goods rs) :
    wsHandlerRun (.ok hostname) first none
        (goods.map (fun i => LoopEvent.tick i none) ++
          LoopEvent.ctxDone :: rest) =
      ((0, WsAction.sendMsg r) :: intervalSends 0 rs) ++
        [(goods.length, WsAction.logDisconnect)] ∧
    (wsHandlerRun (.ok hostname) first none
        (goods.map (fun i => LoopEvent.tick i none) ++
          LoopEvent.ctxDone :: rest)).countP
      (fun p => isCloseFrame p.2) = 0 := by
  have heq : wsHandlerRun (.ok hostname) first none
      (goods.map (fun i => LoopEvent.tick i none) ++
        LoopEvent.ctxDone :: rest) =
      ((0, WsAction.sendMsg r) :: intervalSends 0 rs) ++
        [(goods.length, WsAction.logDisconnect)] := by
    simp only [wsHandlerRun, hfirst]
    rw [wsLoop_goodTicks hostname goods rs hgoods 0
      (LoopEvent.ctxDone :: rest)]
    simp only [wsLoop, Nat.zero_add]
    simp
  refine ⟨heq, ?_⟩
  rw [heq]
  have h0 := intervalSends_no_close rs 0
  simp only [List.countP_append, List.countP_cons, List.countP_nil, h0]
  rfl

theorem cancellation_terminates_without_close_frame_witness :
    stepTick "h1" sampleInputsA none = .ok sampleSnapA ∧
    (wsHandlerRun (.ok "h1") sampleInputsA none [LoopEvent.ctxDone] =
      ((0, WsAction.sendMsg sampleSnapA) :: intervalSends 0 []) ++
        [(0, WsAction.logDisconnect)] ∧
    (wsHandlerRun (.ok "h1") sampleInputsA none
      [LoopEvent.ctxDone]).countP (fun p => isCloseFrame p.2) = 0) :=
  ⟨rfl, cancellation_terminates_without_close_frame "h1" sampleInputsA
    sampleSnapA [] [] [] rfl List.Forall₂.nil⟩

/-- C4, amended: in every snapshot a session sends, the `processes`
sequence is sorted in non-increasing `cpuPercent` order (adjacent
entries may tie; the comparator `cpu i > cpu j` of `sort.Slice`
guarantees descending order but not strictly). -/
theorem sent_snapshots_sorted_nonincreasing_cpu
    (hostnameRes : Except String String) (first : ProviderInputs)
    (firstWriteErr : Option String) (events : List LoopEvent)
    (t : Nat) (r : Resources)
    (h : (t, WsAction.sendMsg r) ∈
      wsHandlerRun hostnameRes first firstWriteErr events) :
    List.Chain' (fun a b => b.cpuPercent ≤ a.cpuPercent) r.processes := by
  cases hostnameRes with
  | error e => simp [wsHandlerRun] at h
  | ok hostname =>
    cases hs : stepTick hostname first firstWriteErr with
    | error e => simp [wsHandlerRun, hs] at h
    | ok r0 =>
      simp only [wsHandlerRun, hs, List.mem_cons] at h
      rcases h with h | h
      · cases h
        exact stepTick_ok_processes hostname first firstWriteErr _ hs
      · exact wsLoop_sent_processes hostname events 0 t r h

theorem sent_snapshots_sorted_nonincreasing_cpu_witness :
    (0, WsAction.sendMsg sampleSnapTie) ∈
      wsHandlerRun (.ok "h1") sampleInputsTie none [] ∧
    List.Chain' (fun a b => b.cpuPercent ≤ a.cpuPercent)
      sampleSnapTie.processes := by
  have hm : (0, WsAction.sendMsg sampleSnapTie) ∈
      wsHandlerRun (.ok "h1") sampleInputsTie none [] := by
    rw [show wsHandlerRun (.ok "h1") sampleInputsTie none [] =
      [(0, WsAction.sendMsg sampleSnapTie)] from rfl]
    exact List.mem_singleton.mpr rfl
  exact ⟨hm, sent_snapshots_sorted_nonincreasing_cpu (.ok "h1")
    sampleInputsTie none [] 0 sampleSnapTie hm⟩

/-- C7, amended: every wire message is a JSON object with exactly the
six top-level keys hostname, uptime, memory, load_average, partitions,
processes; hostname, uptime, memory and load_average match the snapshot
exactly; the memory object has exactly the five keys total, available,
used, usedPercent and free; and the two slice fields marshal through
`marshalGoSlice`, which maps an empty (nil) slice to JSON null — not to
an empty array. -/
theorem wire_message_shape (r : Resources) :
    jsonKeys (marshalResources r) =
      ["hostname", "uptime", "memory", "load_average", "partitions",
        "processes"] ∧
    jsonLookup (marshalResources r) "hostname" = Json.str r.hostname ∧
    jsonLookup (marshalResources r) "uptime" = Json.nat r.uptime ∧
    jsonLookup (marshalResources r) "memory" = marshalMemory r.memory ∧
    jsonKeys (marshalMemory r.memory) =
      ["total", "available", "used", "usedPercent", "free"] ∧
    jsonLookup (marshalResources r) "load_average" =
      marshalLoadAverage r.loadAverage ∧
    jsonLookup (marshalResources r) "partitions" =
      marshalGoSlice marshalDiskPartition r.partitions ∧
    jsonLookup (marshalResources r) "processes" =
      marshalGoSlice marshalProcessInfo r.processes ∧
    marshalGoSlice marshalDiskPartition [] = Json.null ∧
    marshalGoSlice marshalProcessInfo [] = Json.null :=
  ⟨rfl, rfl, rfl, rfl, rfl, rfl, rfl, rfl, rfl, rfl⟩

/-- C8: a partition whose `disk.Usage` lookup failed is omitted from
the built sequence, leaving the other entries exactly as they were (one
pass, no retry); a process whose `p.Name()` or `p.MemoryInfo()` lookup
failed is likewise omitted; every surviving entry is kept with all its
fields. -/
theorem failed_lookups_omitted_successes_kept
    (pre post : List RawPartition) (p : RawPartition) (u : DiskUsage)
    (qre qost : List RawProcess) (q : RawProcess) (nm : String)
    (mi : MemInfo) :
    (p.usage = none →
      buildPartitions (pre ++ p :: post) = buildPartitions (pre ++ post)) ∧
    (p.usage = some u →
      buildPartitions (pre ++ p :: post) =
        buildPartitions pre ++
          { device := p.device, mountpoint := p.mountpoint,
            fstype := p.fstype, total := u.total, used := u.used,
            free := u.free, usedPercent := u.usedPercent } ::
            buildPartitions post) ∧
    (q.name = none →
      buildProcesses (qre ++ q :: qost) = buildProcesses (qre ++ qost)) ∧
    (q.memInfo = none →
      buildProcesses (qre ++ q :: qost) = buildProcesses (qre ++ qost)) ∧
    (q.name = some nm → q.memInfo = some mi →
      buildProcesses (qre ++ q :: qost) =
        buildProcesses qre ++
          { pid := q.pid, name := nm, cpuPercent := q.cpuPercent,
            memoryMB := (mi.rss : Rat) / 1024 / 1024,
            memoryPercent := q.memPercent,
            status := firstOrEmpty q.status, username := q.username,
            cmdline := q.cmdline } :: buildProcesses qost) := by
  refine ⟨?_, ?_, ?_, ?_, ?_⟩
  · intro h
    simp [buildPartitions, List.filterMap_append, List.filterMap_cons, h]
  · intro h
    simp [buildPartitions, List.filterMap_append, List.filterMap_cons, h]
  · intro h
    simp [buildProcesses, List.filterMap_append, List.filterMap_cons, h]
  · intro h
    cases hn : q.name with
    | none =>
      simp [buildProcesses, List.filterMap_append, List.filterMap_cons,
        h, hn]
    | some nm2 =>
      simp [buildProcesses, List.filterMap_append, List.filterMap_cons,
        h, hn]
  · intro h1 h2
    simp [buildProcesses, List.filterMap_append, List.filterMap_cons,
      h1, h2]

theorem failed_lookups_omitted_successes_kept_witness :
    buildPartitions [samplePartFail] = buildPartitions [] ∧
    buildPartitions [samplePartOk] =
      buildPartitions [] ++
        { device := samplePartOk.device,
          mountpoint := samplePartOk.mountpoint,
          fstype := samplePartOk.fstype, total := sampleUsage.total,
          used := sampleUsage.used, free := sampleUsage.free,
          usedPercent := sampleUsage.usedPercent } ::
          buildPartitions [] ∧
    buildProcesses [sampleProcNoName] = buildProcesses [] ∧
    buildProcesses [sampleProcNoMem] = buildProcesses [] ∧
    buildProcesses [rawProcLowA] =
      buildProcesses [] ++
        { pid := rawProcLowA.pid, name := "procA",
          cpuPercent := rawProcLowA.cpuPercent,
          memoryMB := ((1048576 : Nat) : Rat) / 1024 / 1024,
          memoryPercent := rawProcLowA.memPercent,
          status := firstOrEmpty rawProcLowA.status,
          username := rawProcLowA.username,
          cmdline := rawProcLowA.cmdline } :: buildProcesses [] := by
  refine ⟨?_, ?_, ?_, ?_, ?_⟩
  · exact (failed_lookups_omitted_successes_kept [] [] samplePartFail
      sampleUsage [] [] rawProcLowA "procA" ⟨1048576⟩).1 rfl
  · exact (failed_lookups_omitted_successes_kept [] [] samplePartOk
      sampleUsage [] [] rawProcLowA "procA" ⟨1048576⟩).2.1 rfl
  · exact (failed_lookups_omitted_successes_kept [] [] samplePartFail
      sampleUsage [] [] sampleProcNoName "procA" ⟨1048576⟩).2.2.1 rfl
  · exact (failed_lookups_omitted_successes_kept [] [] samplePartFail
      sampleUsage [] [] sampleProcNoMem "procA" ⟨1048576⟩).2.2.2.1 rfl
  · exact (failed_lookups_omitted_successes_kept [] [] samplePartFail
      sampleUsage [] [] rawProcLowA "procA" ⟨1048576⟩).2.2.2.2 rfl rfl

/-- C10: `firstOrEmpty` yields the first element of a non-empty status
list and the empty string on an empty list, so the `status` field of a
`ProcessInfo` is always defined and no out-of-bounds index occurs. -/
theorem firstOrEmpty_first_element_or_empty (x : String) (xs : List String) :
    firstOrEmpty (x :: xs) = x ∧ firstOrEmpty [] = "" :=
  ⟨rfl, rfl⟩

end ResMon
